import Mathlib

/-!
Verification of the ASAM scoring and placement engine of The Intaker.

Shallow embedding of:
- `backend/logic/scoring_engine.py` (structured dimension scorer + weighted
  level-of-care resolver),
- `services/scoring_engine/scorer.py` (keyword severity scorer),
- `services/scoring_engine/loc_rules.py` (max-dimension level-of-care resolver),
- `backend/cloud_run/services/gemini_live_grounding.py` (safety gate).

Python floats are modelled as rationals (all constants involved are exactly
representable and the claims are about the real-valued rule logic); Python
dicts as association lists; Python exceptions (`ValueError`/`TypeError` from
`float`, `KeyError` from indexing) as `Except Unit`.
-/

namespace Intaker

/-- A value stored in a progress map: the intake session supplies strings or
numbers (Python `str` / `int` / `float`). -/
inductive Value where
  | str (s : String)
  | num (q : ℚ)
deriving DecidableEq

/-- A Python dict `{str: value}`: association list with unique keys; lookup
takes the first binding. -/
abbrev ProgressMap := List (String × Value)

/-- `progress_map.get(k)` — `None` (here `none`) when the key is absent. -/
def pmGet (pm : ProgressMap) (k : String) : Option Value :=
  match pm with
  | [] => none
  | (k', v) :: rest => if k' = k then some v else pmGet rest k

/-- `progress_map.get(k, d)` with default `d`. -/
def pmGetD (pm : ProgressMap) (k : String) (d : Value) : Value :=
  (pmGet pm k).getD d

/-- Python whitespace (`str.strip` / `\s`, ASCII range). -/
def pyIsSpace (c : Char) : Bool :=
  c = ' ' || c = '\t' || c = '\n' || c = '\r' || c = '\x0b' || c = '\x0c'

def digChars (cs : List Char) : Bool := cs.all (·.isDigit)

def natOfDigits (cs : List Char) : ℕ :=
  cs.foldl (fun n c => n * 10 + (c.toNat - 48)) 0

/-- Split a character list at the first `'.'`; `none` when there is no dot. -/
def splitAtDot : List Char → (List Char × Option (List Char))
  | [] => ([], none)
  | c :: cs =>
    if c = '.' then ([], some cs)
    else
      let p := splitAtDot cs
      (c :: p.1, p.2)

/-- Unsigned decimal literal: `digits`, `digits.digits`, `digits.`, `.digits`. -/
def parseUnsigned (cs : List Char) : Option ℚ :=
  match splitAtDot cs with
  | (ip, none) =>
    if ip ≠ [] ∧ digChars ip then some (natOfDigits ip) else none
  | (ip, some fp) =>
    if (ip ≠ [] ∨ fp ≠ []) ∧ digChars ip ∧ digChars fp then
      some ((natOfDigits ip : ℚ) + (natOfDigits fp : ℚ) / (10 : ℚ) ^ fp.length)
    else none

/-- Model of Python `float(s)` on a string: strip whitespace, optional sign,
plain decimal form (the forms arising in this system; exotic forms such as
exponents or `inf` are out of scope and rejected). `none` models the
`ValueError` raise. -/
def parseDec (s : String) : Option ℚ :=
  let cs := ((s.toList.dropWhile pyIsSpace).reverse.dropWhile pyIsSpace).reverse
  match cs with
  | '+' :: rest => parseUnsigned rest
  | '-' :: rest => (parseUnsigned rest).map Neg.neg
  | rest => parseUnsigned rest

/-- Model of Python `float(x)` on a progress-map value; `none` models the
`ValueError`/`TypeError` raise. -/
def pyFloat : Value → Option ℚ
  | .num q => some q
  | .str s => parseDec s

/-- `float(x)` where the raise propagates (no surrounding try/except). -/
def pyFloatE (v : Value) : Except Unit ℚ :=
  match pyFloat v with
  | some q => .ok q
  | none => .error ()

/-- Python truthiness of an optional progress-map value (`None`, `""` and `0`
are falsy). -/
def truthy : Option Value → Bool
  | none => false
  | some (.str s) => !s.isEmpty
  | some (.num q) => q != 0

/-- Python `progress_map.get(k) == s` for a string literal `s`. -/
def eqStr (v : Option Value) (s : String) : Bool :=
  v = some (.str s)

/-- A full dimension-score set: the dict
`{"D1": …, …, "D6": …}` returned by `calculate_dimension_scores`
(statically always exactly these six keys). -/
structure Scores where
  d1 : ℚ
  d2 : ℚ
  d3 : ℚ
  d4 : ℚ
  d5 : ℚ
  d6 : ℚ
deriving DecidableEq

/-! ### Structured dimension scorer (`scoring_engine.py` lines 20–112) -/

/-- Lines 25–34: `intox_score` — `float(D1_Q5A)/2.5` with try/except giving
`0.0`, overridden to `4.0` by the critical-intoxication flag. -/
def intoxScore (pm : ProgressMap) : ℚ :=
  let base := ((pyFloat (pmGetD pm "D1_Q5A" (.num 0))).map (· / (5 / 2))).getD 0
  if eqStr (pmGet pm "critical_intoxication") "Yes" then 4 else base

/-- Lines 36–41: `withdrawal_score`. -/
def withdrawalScore (pm : ProgressMap) : ℚ :=
  if eqStr (pmGet pm "history_severe_withdrawal") "Yes"
      || eqStr (pmGet pm "critical_withdrawal") "Yes" then 4
  else if truthy (pmGet pm "withdrawal_symptoms_self_report") then 3
  else 0

/-- Line 43: `scores["D1"] = max(intox_score, withdrawal_score,
float(progress_map.get("D1_score", 0)))` — the outer `float` is not inside a
try/except, so its raise propagates. -/
def calcD1 (pm : ProgressMap) : Except Unit ℚ :=
  (pyFloatE (pmGetD pm "D1_score" (.num 0))).map
    (fun d1s => max (max (intoxScore pm) (withdrawalScore pm)) d1s)

/-- Lines 46–53: the Dimension-2 risk before the external `D2_score`. -/
def d2Risk (pm : ProgressMap) : ℚ :=
  let base :=
    if eqStr (pmGet pm "biomedical_condition_treatment_status") "unstable" then (4 : ℚ)
    else if eqStr (pmGet pm "biomedical_conditions") "Yes" then 2
    else 0
  if eqStr (pmGet pm "pregnancy_status") "Yes" then min 4 (base + 1) else base

/-- Line 55: `scores["D2"] = max(d2_risk, float(progress_map.get("D2_score", 0)))`. -/
def calcD2 (pm : ProgressMap) : Except Unit ℚ :=
  (pyFloatE (pmGetD pm "D2_score" (.num 0))).map (fun d2s => max (d2Risk pm) d2s)

/-- Lines 58–65: the Dimension-3 risk before the external `D3_score`. -/
def d3Risk (pm : ProgressMap) : ℚ :=
  let base :=
    if eqStr (pmGet pm "suicidal_ideation_screen") "Yes"
        || eqStr (pmGet pm "psychosis_screen") "Yes" then (4 : ℚ)
    else if eqStr (pmGet pm "phq2_depression_q1_q2") "Yes"
        || eqStr (pmGet pm "trauma_history_screen") "Yes" then 3
    else 0
  if eqStr (pmGet pm "cognitive_functioning_screen") "Yes" then min 4 (base + 1) else base

/-- Line 67: `scores["D3"] = max(d3_risk, float(progress_map.get("D3_score", 0)))`. -/
def calcD3 (pm : ProgressMap) : Except Unit ℚ :=
  (pyFloatE (pmGetD pm "D3_score" (.num 0))).map (fun d3s => max (d3Risk pm) d3s)

/-- Lines 73–81: Dimension-4 risk from parsed importance/confidence. -/
def d4Of (pm : ProgressMap) (importance confidence : ℚ) : ℚ :=
  let base :=
    if importance > 7 ∧ confidence > 7 ∧ truthy (pmGet pm "past_change_attempts") = true
    then (1 : ℚ)
    else if importance > 5 then 2
    else 4
  if eqStr (pmGet pm "risky_behaviors_substance_use") "Yes" then min 4 (base + 1) else base

/-- Lines 70–83: `float(...)` on the importance/confidence fields is not
protected by try/except, so its raise propagates. -/
def calcD4 (pm : ProgressMap) : Except Unit ℚ := do
  let importance ← pyFloatE (pmGetD pm "change_importance_score" (.num 0))
  let confidence ← pyFloatE (pmGetD pm "change_confidence_score" (.num 0))
  pure (d4Of pm importance confidence)

/-- Lines 86–98: Dimension 5 (recovery environment). -/
def calcD5 (pm : ProgressMap) : ℚ :=
  let safety := pmGet pm "environment_safety_triggers"
  let support := pmGet pm "social_support_system"
  if eqStr safety "unsafe_imminent_danger" || (eqStr safety "No" && eqStr support "No") then 4
  else if eqStr safety "No" || eqStr support "No"
      || eqStr (pmGet pm "life_stressors_recovery") "Yes" then 3
  else if eqStr safety "Yes" && eqStr support "Yes" then 1
  else 2

/-- Lines 101–110: Dimension 6 (barriers and preferences). -/
def calcD6 (pm : ProgressMap) : ℚ :=
  let base := if eqStr (pmGet pm "treatment_barriers") "Yes" then (3 : ℚ) else 1
  if truthy (pmGet pm "patient_strengths_resources") then max 0 (base - 1) else base

/-- `ASAMScoringEngine.calculate_dimension_scores` (lines 20–112). The
`.error ()` result models an uncaught `ValueError`/`TypeError` escaping the
function; evaluation order of the fallible parses matches the source. -/
def calculate_dimension_scores (pm : ProgressMap) : Except Unit Scores := do
  let d1 ← calcD1 pm
  let d2 ← calcD2 pm
  let d3 ← calcD3 pm
  let d4 ← calcD4 pm
  pure ⟨d1, d2, d3, d4, calcD5 pm, calcD6 pm⟩

instance {ε α : Type} [DecidableEq ε] [DecidableEq α] : DecidableEq (Except ε α) :=
  fun a b =>
    match a, b with
    | .ok x, .ok y => decidable_of_iff (x = y) (by simp)
    | .ok _, .error _ => .isFalse (by simp)
    | .error _, .ok _ => .isFalse (by simp)
    | .error x, .error y => decidable_of_iff (x = y) (by simp)

/-! ### Placement resolvers -/

/-- `ASAMScoringEngine.WEIGHTS` (lines 11–17). -/
def WEIGHTS_medical_risk : ℚ := 3 / 10

def WEIGHTS_psychological_risk : ℚ := 3 / 10

def WEIGHTS_substance_use_risk : ℚ := 2 / 10

def WEIGHTS_recovery_env_risk : ℚ := 15 / 100

def WEIGHTS_barriers_risk : ℚ := 15 / 100

/-- Lines 117–123: the weighted aggregate `overall_risk`. -/
def overallRisk (s : Scores) : ℚ :=
  max s.d1 s.d2 * WEIGHTS_medical_risk +
    s.d3 * WEIGHTS_psychological_risk +
    s.d4 * WEIGHTS_substance_use_risk +
    s.d5 * WEIGHTS_recovery_env_risk +
    s.d6 * WEIGHTS_barriers_risk

/-- `max(scores.values())` over the six-key dict (left-assoc fold, as Python's
`max` over the values in insertion order D1..D6). -/
def maxValues (s : Scores) : ℚ :=
  max (max (max (max (max s.d1 s.d2) s.d3) s.d4) s.d5) s.d6

/-- Lines 126–133: the branch of `determine_level_of_care` on the aggregate
`overall_risk` and `max(scores.values())`. -/
def placementOf (overall_risk max_value : ℚ) : String :=
  if overall_risk ≥ 7 / 2 ∨ max_value ≥ 4 then "Level 3.7: Residential/Inpatient"
  else if overall_risk ≥ 3 then "Level 2.5: High-Intensity Outpatient"
  else if overall_risk ≥ 5 / 2 then "Level 2.1: Intensive Outpatient"
  else "Level 1.0: Outpatient Therapy"

/-- `ASAMScoringEngine.determine_level_of_care` (lines 114–133) on a score
dict holding exactly the six dimension keys. -/
def determine_level_of_care (s : Scores) : String :=
  placementOf (overallRisk s) (maxValues s)

/-- `determine_level_of_care` on a general score dict (association list):
`scores["D1"]` … `scores["D6"]` raise `KeyError` (here `.error ()`) when a key
is absent — there is no emptiness guard in this resolver. -/
def determine_level_of_care_dict (scores : List (String × ℚ)) : Except Unit String := do
  let get := fun (k : String) => match scores.lookup k with
    | some v => Except.ok v
    | none => Except.error ()
  let d1 ← get "D1"
  let d2 ← get "D2"
  let d3 ← get "D3"
  let d4 ← get "D4"
  let d5 ← get "D5"
  let d6 ← get "D6"
  let overall_risk := max d1 d2 * WEIGHTS_medical_risk + d3 * WEIGHTS_psychological_risk +
    d4 * WEIGHTS_substance_use_risk + d5 * WEIGHTS_recovery_env_risk + d6 * WEIGHTS_barriers_risk
  match scores.map (·.2) with
  | [] => Except.error ()
  | v :: vs => pure (placementOf overall_risk (vs.foldl max v))

/-- The six ASAM dimensions (`asam_schema.Dimension`). -/
inductive Dimension where
  | D1
  | D2
  | D3
  | D4
  | D5
  | D6
deriving DecidableEq

/-- `determine_loc` (`services/scoring_engine/loc_rules.py` lines 25–46):
empty guard, then branch on `max(scores.values())`. The source annotates the
values as `int`; the body is numeric-generic and is embedded over ℚ. -/
def determine_loc (scores : List (Dimension × ℚ)) : String :=
  match scores.map (·.2) with
  | [] => "Level 1.0 (Outpatient Therapy)"
  | v :: vs =>
    let overall_risk_score := vs.foldl max v
    if overall_risk_score ≥ 4 then "Level 3.7 (Residential/Inpatient)"
    else if overall_risk_score ≥ 3 then "Level 2.5 (High-Intensity Outpatient)"
    else if overall_risk_score ≥ 2 then "Level 2.1 (Intensive Outpatient)"
    else "Level 1.0 (Outpatient Therapy)"

/-- The ordered tier of a level-of-care label (either resolver's spelling):
Outpatient Therapy < Intensive Outpatient < High-Intensity Outpatient <
Residential/Inpatient. -/
def locRank : String → ℕ
  | "Level 3.7: Residential/Inpatient" => 3
  | "Level 3.7 (Residential/Inpatient)" => 3
  | "Level 2.5: High-Intensity Outpatient" => 2
  | "Level 2.5 (High-Intensity Outpatient)" => 2
  | "Level 2.1: Intensive Outpatient" => 1
  | "Level 2.1 (Intensive Outpatient)" => 1
  | _ => 0

/-! ### Reference resolvers, written from the spec's words (for the
refinement claim C2 only): weighted strategy
`overall_risk = max(D1,D2)*0.30 + D3*0.30 + D4*0.20 + D5*0.15 + D6*0.15`,
top-down inclusive thresholds with the any-dimension-≥-4 override; max
strategy `overall_risk = max(all six scores)` with thresholds 4/3/2. -/

def specWeighted (s : Scores) : String :=
  let overall_risk := max s.d1 s.d2 * (30 / 100) + s.d3 * (30 / 100) + s.d4 * (20 / 100) +
    s.d5 * (15 / 100) + s.d6 * (15 / 100)
  if overall_risk ≥ 35 / 10 ∨ s.d1 ≥ 4 ∨ s.d2 ≥ 4 ∨ s.d3 ≥ 4 ∨ s.d4 ≥ 4 ∨ s.d5 ≥ 4 ∨ s.d6 ≥ 4
    then "Level 3.7: Residential/Inpatient"
  else if overall_risk ≥ 30 / 10 then "Level 2.5: High-Intensity Outpatient"
  else if overall_risk ≥ 25 / 10 then "Level 2.1: Intensive Outpatient"
  else "Level 1.0: Outpatient Therapy"

def specMax (s : Scores) : String :=
  if max (max (max (max (max s.d1 s.d2) s.d3) s.d4) s.d5) s.d6 ≥ 4 then
    "Level 3.7 (Residential/Inpatient)"
  else if max (max (max (max (max s.d1 s.d2) s.d3) s.d4) s.d5) s.d6 ≥ 3 then
    "Level 2.5 (High-Intensity Outpatient)"
  else if max (max (max (max (max s.d1 s.d2) s.d3) s.d4) s.d5) s.d6 ≥ 2 then
    "Level 2.1 (Intensive Outpatient)"
  else "Level 1.0 (Outpatient Therapy)"

/-- The six-entry dict the transcript pipeline passes to `determine_loc`. -/
def toDimList (s : Scores) : List (Dimension × ℚ) :=
  [(.D1, s.d1), (.D2, s.d2), (.D3, s.d3), (.D4, s.d4), (.D5, s.d5), (.D6, s.d6)]

/-! ### Keyword severity scorer (`services/scoring_engine/scorer.py`) -/

/-- One entry of `SCORING_RULES`: `phrase: (dimension, severity)`. -/
structure Rule where
  phrase : String
  dim : Dimension
  sev : ℕ
deriving DecidableEq

/-- `SCORING_RULES` (lines 5–63), in source order (Python dicts iterate in
insertion order). -/
def SCORING_RULES : List Rule :=
  [⟨"shaking", .D1, 2⟩, ⟨"tremors", .D1, 2⟩, ⟨"sweating", .D1, 2⟩, ⟨"nausea", .D1, 2⟩,
   ⟨"vomiting", .D1, 2⟩, ⟨"throwing up", .D1, 2⟩, ⟨"seizure", .D1, 4⟩, ⟨"seizures", .D1, 4⟩,
   ⟨"hallucinations", .D1, 4⟩, ⟨"hallucinating", .D1, 4⟩, ⟨"delirium", .D1, 4⟩,
   ⟨"blackout", .D1, 3⟩,
   ⟨"diabetes", .D2, 2⟩, ⟨"heart disease", .D2, 2⟩, ⟨"liver", .D2, 3⟩, ⟨"pregnant", .D2, 3⟩,
   ⟨"infection", .D2, 2⟩, ⟨"chronic pain", .D2, 2⟩, ⟨"unstable", .D2, 4⟩,
   ⟨"suicidal", .D3, 4⟩, ⟨"suicide", .D3, 4⟩, ⟨"kill myself", .D3, 4⟩, ⟨"hurt myself", .D3, 3⟩,
   ⟨"better off dead", .D3, 3⟩, ⟨"depressed", .D3, 2⟩, ⟨"anxiety", .D3, 2⟩, ⟨"panic", .D3, 2⟩,
   ⟨"voices", .D3, 4⟩, ⟨"hearing voices", .D3, 4⟩, ⟨"psychosis", .D3, 4⟩,
   ⟨"don\x27t want help", .D4, 4⟩, ⟨"forced", .D4, 3⟩, ⟨"court ordered", .D4, 2⟩,
   ⟨"not ready", .D4, 3⟩, ⟨"denial", .D4, 4⟩,
   ⟨"unsafe", .D5, 4⟩, ⟨"danger", .D5, 4⟩, ⟨"violence", .D5, 4⟩, ⟨"abusive", .D5, 4⟩,
   ⟨"triggers", .D5, 2⟩,
   ⟨"homeless", .D6, 3⟩, ⟨"live in my car", .D6, 3⟩, ⟨"no money", .D6, 3⟩,
   ⟨"financial", .D6, 2⟩, ⟨"transportation", .D6, 2⟩, ⟨"no job", .D6, 2⟩]

/-- `p` is a character-list head of `cs` (helper for the containment test). -/
def leadsWith : List Char → List Char → Bool
  | [], _ => true
  | _ :: _, [] => false
  | a :: as, b :: bs => a = b && leadsWith as bs

/-- Python `p in t` on strings: substring containment (not whole-word). -/
def substrIn (p : List Char) : List Char → Bool
  | [] => p.isEmpty
  | c :: t => leadsWith p (c :: t) || substrIn p t

/-- `transcript.lower()` (ASCII lowering, as all rule phrases are ASCII). -/
def lowerChars (s : String) : List Char :=
  s.toList.map Char.toLower

/-- One iteration of the `for phrase, (dim, score) in SCORING_RULES.items()`
loop (lines 75–78): on a substring hit, raise the dimension's running
maximum if the rule's severity exceeds it. -/
def stepRule (tl : List Char) (scores : Dimension → ℕ) (r : Rule) : Dimension → ℕ :=
  if substrIn r.phrase.toList tl then
    if r.sev > scores r.dim then
      fun d => if d = r.dim then r.sev else scores d
    else scores
  else scores

/-- `calculate_severity` with an explicit rule list (the source iterates the
module-level dict `SCORING_RULES`). -/
def calculate_severity_with (rules : List Rule) (transcript : String) : Dimension → ℕ :=
  rules.foldl (stepRule (lowerChars transcript)) (fun _ => 0)

/-- `calculate_severity` (`scorer.py` lines 65–80): all dimensions start at 0,
then the rule loop. -/
def calculate_severity (transcript : String) : Dimension → ℕ :=
  calculate_severity_with SCORING_RULES transcript

/-- Reference for C5, from the spec's words: for each dimension, the maximum
severity over all rules of the table whose phrase occurs (case-insensitively)
as a substring of the text, and 0 when no rule phrase occurs. -/
def maxMatchSeverity (rules : List Rule) (transcript : String) (d : Dimension) : ℕ :=
  (((rules.filter (fun r => substrIn r.phrase.toList (lowerChars transcript) && r.dim = d)).map
    Rule.sev).foldr max 0)

/-! ### Safety gate (`gemini_live_grounding.py` lines 251–288 and 424–440) -/

/-- A regex word character (`\w`, ASCII range: the patterns are ASCII). -/
def isWordChar (c : Char) : Bool :=
  c.isAlphanum || c = '_'

/-- A token of an expanded high-risk pattern alternative: a literal run, one
mandatory whitespace block (`\s+`), or exactly one whitespace char (`[\s]`). -/
inductive Tok where
  | lit (s : String)
  | wsPlus
  | wsOne
deriving DecidableEq

/-- `_HIGH_RISK_PATTERNS` (lines 251–256) with the groups `(al|e)`, `(ing)?`,
`(ting)?` and `[-\s]?` expanded into explicit alternatives; every alternative
is anchored by `\b` on both sides (the inner `od\b` coincides with the outer
`\b`). -/
def HIGH_RISK_ALTS : List (List Tok) :=
  [[.lit "suicidal"], [.lit "suicide"],
   [.lit "kill", .wsPlus, .lit "myself"],
   [.lit "end", .wsPlus, .lit "my", .wsPlus, .lit "life"],
   [.lit "want", .wsPlus, .lit "to", .wsPlus, .lit "die"],
   [.lit "selfharm"], [.lit "self-harm"], [.lit "self", .wsOne, .lit "harm"],
   [.lit "hurt", .wsPlus, .lit "myself"], [.lit "hurting", .wsPlus, .lit "myself"],
   [.lit "cut", .wsPlus, .lit "myself"], [.lit "cutting", .wsPlus, .lit "myself"],
   [.lit "overdose"], [.lit "od"],
   [.lit "took", .wsPlus, .lit "too", .wsPlus, .lit "many"], [.lit "pills"],
   [.lit "abuse"],
   [.lit "hit", .wsPlus, .lit "me"], [.lit "beat", .wsPlus, .lit "me"],
   [.lit "hurt", .wsPlus, .lit "me"]]

/-- Match a token sequence at the head of `cs`, returning the remainder.
(`\s+` is followed by a letter in every alternative, so greedy whitespace
consumption is exact.) -/
def matchToks : List Tok → List Char → Option (List Char)
  | [], cs => some cs
  | .lit s :: ts, cs =>
    if leadsWith s.toList cs then matchToks ts (cs.drop s.length) else none
  | .wsPlus :: ts, cs =>
    match cs with
    | [] => none
    | c :: rest => if pyIsSpace c then matchToks ts (rest.dropWhile pyIsSpace) else none
  | .wsOne :: ts, cs =>
    match cs with
    | [] => none
    | c :: rest => if pyIsSpace c then matchToks ts rest else none

/-- `\b` before the match: start of text or a non-word previous character
(every alternative starts with a word character). -/
def boundaryBefore : Option Char → Bool
  | none => true
  | some c => !isWordChar c

/-- `\b` after the match: end of text or a non-word next character. -/
def boundaryAfter : List Char → Bool
  | [] => true
  | c :: _ => !isWordChar c

/-- Does some alternative match at this position with word boundaries? -/
def altAt (prev : Option Char) (cs : List Char) : Bool :=
  HIGH_RISK_ALTS.any (fun alt =>
    boundaryBefore prev &&
      match matchToks alt cs with
      | some rest => boundaryAfter rest
      | none => false)

/-- `re.search`: try every position, tracking the previous character for the
boundary test. -/
def scanHighRisk (prev : Option Char) : List Char → Bool
  | [] => altAt prev []
  | c :: cs => altAt prev (c :: cs) || scanHighRisk (some c) cs

/-- `contains_high_risk_symptom` (lines 260–267): empty text is `False`,
otherwise a case-insensitive search of the high-risk patterns (modelled by
lowering the text; the patterns are lower-case). -/
def contains_high_risk_symptom (user_text : String) : Bool :=
  if user_text.isEmpty then false
  else scanHighRisk none (lowerChars user_text)

/-- Python `str.strip()`. -/
def pyStrip (s : String) : String :=
  String.mk (((s.toList.dropWhile pyIsSpace).reverse.dropWhile pyIsSpace).reverse)

/-- The `escalation_protocols` component: an opaque dict; the gate only uses
its truthiness (`None` and the empty dict are falsy). -/
def dictTruthy : Option (List (String × String)) → Bool
  | none => false
  | some l => !l.isEmpty

/-- `ActiveScript` (lines 141–149), restricted to the fields the safety gate
reads; `script_data`/`scoring_weights` are opaque to the gate and omitted. -/
structure ActiveScript where
  script_id : String
  version : String
  script_name : Option String
  description : Option String
  escalation_protocols : Option (List (String × String))
deriving DecidableEq

/-- `build_escalation_addendum` (lines 270–288). -/
def build_escalation_addendum (escalation_protocols : Option (List (String × String))) :
    String :=
  let proto_hint :=
    if dictTruthy escalation_protocols then
      "CONSULT THE \x27escalation_protocols\x27 IN YOUR CONTEXT immediately."
    else ""
  pyStrip
    ("!!! HIGH-RISK SAFETY OVERRIDE !!!\n" ++
     "You have detected a potential safety risk (suicide, self-harm, overdose, or violence).\n" ++
     "1. STOP the normal script flow IMMEDIATELY.\n" ++
     "2. ACKNOWLEDGE the user\x27s distress with empathy, but DO NOT try to treat or solve it.\n" ++
     "3. " ++ proto_hint ++ "\n" ++
     "4. Output the specific safety triage questions or handoff instructions required by the protocol.\n" ++
     "5. Do NOT return to the normal script until the safety risk is fully triaged and resolved per protocol.\n" ++
     "!!! END SAFETY OVERRIDE !!!\n")

/-- The numeric tier of the weighted-resolver branch (lines 126–133), for
monotonicity statements: 3 = Residential/Inpatient … 0 = Outpatient Therapy. -/
def rankOf (overall_risk max_value : ℚ) : ℕ :=
  if overall_risk ≥ 7 / 2 ∨ max_value ≥ 4 then 3
  else if overall_risk ≥ 3 then 2
  else if overall_risk ≥ 5 / 2 then 1
  else 0

/-- The numeric tier of the max-dimension-resolver branch (`loc_rules.py`
lines 32–46). -/
def rankMaxOf (overall_risk_score : ℚ) : ℕ :=
  if overall_risk_score ≥ 4 then 3
  else if overall_risk_score ≥ 3 then 2
  else if overall_risk_score ≥ 2 then 1
  else 0

/-- The concrete progress map of the spec's golden example (and of
`test_scoring_engine.py`), without the explicit "No" answers, which the
engine treats the same as absent keys. -/
def c9_progress : ProgressMap :=
  [("D1_Q5A", .num (15 / 2)), ("biomedical_conditions", .str "Yes"),
   ("phq2_depression_q1_q2", .str "Yes"), ("change_importance_score", .num 8),
   ("change_confidence_score", .num 8), ("past_change_attempts", .str "Tried meetings"),
   ("social_support_system", .str "Yes"), ("environment_safety_triggers", .str "Yes"),
   ("patient_strengths_resources", .str "Family support")]

/-- `c9_progress` after `progress["suicidal_ideation_screen"] = "Yes"`. -/
def c9_progress_esc : ProgressMap :=
  c9_progress ++ [("suicidal_ideation_screen", .str "Yes")]

/-- The metadata record of the `logger.warning` call (lines 431–438): fixed
message and fields, never the utterance text. -/
structure LogEvent where
  message : String
  event_type : String
  script_id : String
  version : String
  gate : String
  triggered : Bool
deriving DecidableEq

/-- `build_turn_instruction_if_needed` (lines 424–440). The Python function
returns the optional override instruction and, as a side effect, emits one
log event in the triggered branch; the log emission is modelled as the second
component. -/
def build_turn_instruction_if_needed (active : ActiveScript) (user_text : String) :
    Option String × Option LogEvent :=
  if contains_high_risk_symptom user_text then
    (some (build_escalation_addendum active.escalation_protocols),
     some { message := "High-risk symptom detected; escalation override should be applied"
            event_type := "SECURITY_SUSPICIOUS_ACTIVITY"
            script_id := active.script_id
            version := active.version
            gate := "high_risk_symptom"
            triggered := true })
  else (none, none)

/-! ## Helper lemmas -/

lemma le_maxValues_iff (a : ℚ) (s : Scores) :
    a ≤ maxValues s ↔ a ≤ s.d1 ∨ a ≤ s.d2 ∨ a ≤ s.d3 ∨ a ≤ s.d4 ∨ a ≤ s.d5 ∨ a ≤ s.d6 := by
  simp only [maxValues, le_max_iff, or_assoc]

lemma specWeighted_eq_placement (s : Scores) :
    specWeighted s = placementOf (overallRisk s) (maxValues s) := by
  have hov : max s.d1 s.d2 * (30 / 100) + s.d3 * (30 / 100) + s.d4 * (20 / 100) +
      s.d5 * (15 / 100) + s.d6 * (15 / 100) = overallRisk s := by
    simp only [overallRisk, WEIGHTS_medical_risk, WEIGHTS_psychological_risk,
      WEIGHTS_substance_use_risk, WEIGHTS_recovery_env_risk, WEIGHTS_barriers_risk]
    norm_num
  simp only [specWeighted, placementOf, hov]
  rw [show ((35 : ℚ) / 10) = 7 / 2 by norm_num, show ((30 : ℚ) / 10) = 3 by norm_num,
    show ((25 : ℚ) / 10) = 5 / 2 by norm_num]
  simp only [ge_iff_le, le_maxValues_iff]

lemma determine_loc_toDimList (s : Scores) : determine_loc (toDimList s) = specMax s := rfl

lemma locRank_placementOf (r m : ℚ) : locRank (placementOf r m) = rankOf r m := by
  unfold placementOf rankOf
  split_ifs <;> rfl

lemma locRank_specMax (s : Scores) : locRank (specMax s) = rankMaxOf (maxValues s) := by
  unfold specMax rankMaxOf maxValues
  split_ifs <;> rfl

lemma rankOf_mono {r m r' m' : ℚ} (hr : r ≤ r') (hm : m ≤ m') :
    rankOf r m ≤ rankOf r' m' := by
  unfold rankOf
  split_ifs <;>
    first
      | omega
      | (exfalso; push_neg at *; linarith)
      | (exfalso; push_neg at *;
         rcases ‹_ ∨ _› with t | t <;> linarith)

lemma rankMaxOf_mono {v v' : ℚ} (h : v ≤ v') : rankMaxOf v ≤ rankMaxOf v' := by
  unfold rankMaxOf
  split_ifs <;> first | omega | (exfalso; push_neg at *; linarith)

lemma overallRisk_mono {s s' : Scores} (h1 : s.d1 ≤ s'.d1) (h2 : s.d2 ≤ s'.d2)
    (h3 : s.d3 ≤ s'.d3) (h4 : s.d4 ≤ s'.d4) (h5 : s.d5 ≤ s'.d5) (h6 : s.d6 ≤ s'.d6) :
    overallRisk s ≤ overallRisk s' := by
  have hm : max s.d1 s.d2 ≤ max s'.d1 s'.d2 := max_le_max h1 h2
  simp only [overallRisk, WEIGHTS_medical_risk, WEIGHTS_psychological_risk,
    WEIGHTS_substance_use_risk, WEIGHTS_recovery_env_risk, WEIGHTS_barriers_risk]
  linarith

lemma maxValues_mono {s s' : Scores} (h1 : s.d1 ≤ s'.d1) (h2 : s.d2 ≤ s'.d2)
    (h3 : s.d3 ≤ s'.d3) (h4 : s.d4 ≤ s'.d4) (h5 : s.d5 ≤ s'.d5) (h6 : s.d6 ≤ s'.d6) :
    maxValues s ≤ maxValues s' :=
  max_le_max (max_le_max (max_le_max (max_le_max (max_le_max h1 h2) h3) h4) h5) h6

lemma foldl_stepRule (t : String) (rules : List Rule) (scores : Dimension → ℕ) (d : Dimension) :
    (rules.foldl (stepRule (lowerChars t)) scores) d =
      max (scores d) (maxMatchSeverity rules t d) := by
  induction rules generalizing scores with
  | nil => simp [maxMatchSeverity]
  | cons r rs ih =>
    rw [List.foldl_cons, ih]
    by_cases hm : substrIn r.phrase.toList (lowerChars t) = true
    · simp only [String.toList] at hm
      by_cases hd : r.dim = d
      · subst hd
        have hf : maxMatchSeverity (r :: rs) t r.dim =
            max r.sev (maxMatchSeverity rs t r.dim) := by
          simp [maxMatchSeverity, List.filter_cons, hm]
        rw [hf]
        by_cases hgt : scores r.dim < r.sev
        · have hs : stepRule (lowerChars t) scores r r.dim = r.sev := by
            simp [stepRule, hm, gt_iff_lt, hgt]
          rw [hs, ← max_assoc, max_eq_right hgt.le]
        · have hs : stepRule (lowerChars t) scores r r.dim = scores r.dim := by
            simp [stepRule, hm, gt_iff_lt, hgt]
          rw [hs, ← max_assoc, max_eq_left (Nat.le_of_not_lt hgt)]
      · have hne : d ≠ r.dim := fun h => hd h.symm
        have hf : maxMatchSeverity (r :: rs) t d = maxMatchSeverity rs t d := by
          simp [maxMatchSeverity, List.filter_cons, hd]
        have hs : stepRule (lowerChars t) scores r d = scores d := by
          by_cases hgt : scores r.dim < r.sev
          · simp [stepRule, hm, gt_iff_lt, hgt, hne]
          · simp [stepRule, hm, gt_iff_lt, hgt]
        rw [hf, hs]
    · have hm2 : substrIn r.phrase.data (lowerChars t) = false := by
        simp only [String.toList] at hm
        simpa using hm
      have hf : maxMatchSeverity (r :: rs) t d = maxMatchSeverity rs t d := by
        simp [maxMatchSeverity, List.filter_cons, hm2]
      have hs : stepRule (lowerChars t) scores r d = scores d := by
        simp [stepRule, hm2]
      rw [hf, hs]

lemma foldr_max_perm {l m : List ℕ} (h : l.Perm m) : l.foldr max 0 = m.foldr max 0 := by
  induction h with
  | nil => rfl
  | cons x _ ih => simp [ih]
  | swap x y l => simp only [List.foldr_cons]; rw [max_left_comm]
  | trans _ _ ih1 ih2 => exact ih1.trans ih2

lemma maxMatchSeverity_perm {rules rules2 : List Rule} (h : rules.Perm rules2)
    (t : String) (d : Dimension) :
    maxMatchSeverity rules t d = maxMatchSeverity rules2 t d :=
  foldr_max_perm ((h.filter _).map _)

lemma calculate_severity_with_eq (rs : List Rule) (t : String) (x : Dimension) :
    calculate_severity_with rs t x = maxMatchSeverity rs t x := by
  simpa [calculate_severity_with] using foldl_stepRule t rs (fun _ => 0) x

lemma foldr_max_le {l : List ℕ} (h : ∀ x ∈ l, x ≤ 4) : l.foldr max 0 ≤ 4 := by
  induction l with
  | nil => norm_num
  | cons a as ih =>
    simp only [List.foldr_cons]
    exact max_le (h a (List.mem_cons_self a as)) (ih fun x hx => h x (List.mem_cons_of_mem a hx))

lemma calculate_severity_le_four (t : String) (d : Dimension) :
    calculate_severity t d ≤ 4 := by
  rw [show calculate_severity t d = calculate_severity_with SCORING_RULES t d from rfl,
    calculate_severity_with_eq]
  apply foldr_max_le
  intro x hx
  simp only [List.mem_map, List.mem_filter] at hx
  obtain ⟨r, ⟨hrmem, hpred⟩, hsev⟩ := hx
  have hall : ∀ r ∈ SCORING_RULES, r.sev ≤ 4 := by decide
  exact hsev ▸ hall r hrmem

lemma calc_scores_eq (pm : ProgressMap) (q1 q2 q3 qi qc : ℚ)
    (h1 : pyFloatE (pmGetD pm "D1_score" (.num 0)) = .ok q1)
    (h2 : pyFloatE (pmGetD pm "D2_score" (.num 0)) = .ok q2)
    (h3 : pyFloatE (pmGetD pm "D3_score" (.num 0)) = .ok q3)
    (h4 : pyFloatE (pmGetD pm "change_importance_score" (.num 0)) = .ok qi)
    (h5 : pyFloatE (pmGetD pm "change_confidence_score" (.num 0)) = .ok qc) :
    calculate_dimension_scores pm =
      .ok ⟨max (max (intoxScore pm) (withdrawalScore pm)) q1, max (d2Risk pm) q2,
           max (d3Risk pm) q3, d4Of pm qi qc, calcD5 pm, calcD6 pm⟩ := by
  simp [calculate_dimension_scores, calcD1, calcD2, calcD3, calcD4, h1, h2, h3, h4, h5,
    Except.map, Bind.bind, Except.bind, pure, Except.pure]

lemma calc_scores_inversion (pm : ProgressMap) (s : Scores)
    (hok : calculate_dimension_scores pm = .ok s) :
    ∃ q1 q2 q3 qi qc,
      pyFloatE (pmGetD pm "D1_score" (.num 0)) = .ok q1 ∧
      pyFloatE (pmGetD pm "D2_score" (.num 0)) = .ok q2 ∧
      pyFloatE (pmGetD pm "D3_score" (.num 0)) = .ok q3 ∧
      pyFloatE (pmGetD pm "change_importance_score" (.num 0)) = .ok qi ∧
      pyFloatE (pmGetD pm "change_confidence_score" (.num 0)) = .ok qc ∧
      s = ⟨max (max (intoxScore pm) (withdrawalScore pm)) q1, max (d2Risk pm) q2,
           max (d3Risk pm) q3, d4Of pm qi qc, calcD5 pm, calcD6 pm⟩ := by
  cases hq1 : pyFloatE (pmGetD pm "D1_score" (.num 0)) with
  | error e =>
    exfalso
    simp [calculate_dimension_scores, calcD1, hq1, Except.map, Bind.bind, Except.bind] at hok
  | ok q1 =>
  cases hq2 : pyFloatE (pmGetD pm "D2_score" (.num 0)) with
  | error e =>
    exfalso
    simp [calculate_dimension_scores, calcD1, calcD2, hq1, hq2, Except.map, Bind.bind,
      Except.bind] at hok
  | ok q2 =>
  cases hq3 : pyFloatE (pmGetD pm "D3_score" (.num 0)) with
  | error e =>
    exfalso
    simp [calculate_dimension_scores, calcD1, calcD2, calcD3, hq1, hq2, hq3, Except.map,
      Bind.bind, Except.bind] at hok
  | ok q3 =>
  cases hq4 : pyFloatE (pmGetD pm "change_importance_score" (.num 0)) with
  | error e =>
    exfalso
    simp [calculate_dimension_scores, calcD1, calcD2, calcD3, calcD4, hq1, hq2, hq3, hq4,
      Except.map, Bind.bind, Except.bind] at hok
  | ok qi =>
  cases hq5 : pyFloatE (pmGetD pm "change_confidence_score" (.num 0)) with
  | error e =>
    exfalso
    simp [calculate_dimension_scores, calcD1, calcD2, calcD3, calcD4, hq1, hq2, hq3, hq4,
      hq5, Except.map, Bind.bind, Except.bind] at hok
  | ok qc =>
    rw [calc_scores_eq pm q1 q2 q3 qi qc hq1 hq2 hq3 hq4 hq5] at hok
    exact ⟨q1, q2, q3, qi, qc, rfl, rfl, rfl, rfl, rfl, (Except.ok.inj hok).symm⟩

lemma withdrawalScore_bounds (pm : ProgressMap) :
    0 ≤ withdrawalScore pm ∧ withdrawalScore pm ≤ 4 := by
  unfold withdrawalScore
  split_ifs <;> norm_num

lemma d2Risk_bounds (pm : ProgressMap) : 0 ≤ d2Risk pm ∧ d2Risk pm ≤ 4 := by
  simp only [d2Risk]
  split_ifs <;> constructor <;> norm_num [min_def]

lemma d3Risk_bounds (pm : ProgressMap) : 0 ≤ d3Risk pm ∧ d3Risk pm ≤ 4 := by
  simp only [d3Risk]
  split_ifs <;> constructor <;> norm_num [min_def]

lemma d4Of_bounds (pm : ProgressMap) (qi qc : ℚ) :
    0 ≤ d4Of pm qi qc ∧ d4Of pm qi qc ≤ 4 := by
  simp only [d4Of]
  split_ifs <;> constructor <;> norm_num [min_def]

lemma calcD5_bounds (pm : ProgressMap) : 0 ≤ calcD5 pm ∧ calcD5 pm ≤ 4 := by
  simp only [calcD5]
  split_ifs <;> norm_num

lemma calcD6_bounds (pm : ProgressMap) : 0 ≤ calcD6 pm ∧ calcD6 pm ≤ 4 := by
  simp only [calcD6]
  split_ifs <;> constructor <;> norm_num [max_def]

/-! ## Claims -/

/-- C1: any dimension score ≥ 4 (in particular exactly 4) forces the weighted
resolver to Residential/Inpatient, regardless of the other dimension values
and of the weighted aggregate. -/
theorem any_dimension_ge_four_forces_residential (s : Scores)
    (h : 4 ≤ s.d1 ∨ 4 ≤ s.d2 ∨ 4 ≤ s.d3 ∨ 4 ≤ s.d4 ∨ 4 ≤ s.d5 ∨ 4 ≤ s.d6) :
    determine_level_of_care s = "Level 3.7: Residential/Inpatient" := by
  have hm : (4 : ℚ) ≤ maxValues s := (le_maxValues_iff 4 s).mpr h
  simp only [determine_level_of_care, placementOf]
  rw [if_pos (Or.inr hm)]

/-- C1 witness: a score set with D1 exactly 4 and all other dimensions 0. -/
theorem any_dimension_ge_four_forces_residential_witness :
    (4 : ℚ) ≤ 4 ∧
    determine_level_of_care ⟨4, 0, 0, 0, 0, 0⟩ = "Level 3.7: Residential/Inpatient" :=
  ⟨by norm_num,
   any_dimension_ge_four_forces_residential ⟨4, 0, 0, 0, 0, 0⟩ (Or.inl (by norm_num))⟩

/-- C2: on six-dimension score sets with values in [0,4], the weighted
resolver equals the spec's weighted reference and the max resolver equals
the spec's max reference; thresholds are inclusive and checked top-down
(weighted aggregate exactly 2.5 with no dimension at 4 yields Intensive
Outpatient; a maximal score of exactly 4 yields Residential under either
strategy). -/
theorem resolvers_match_spec_strategies (s : Scores)
    (h1 : 0 ≤ s.d1 ∧ s.d1 ≤ 4) (h2 : 0 ≤ s.d2 ∧ s.d2 ≤ 4) (h3 : 0 ≤ s.d3 ∧ s.d3 ≤ 4)
    (h4 : 0 ≤ s.d4 ∧ s.d4 ≤ 4) (h5 : 0 ≤ s.d5 ∧ s.d5 ≤ 4) (h6 : 0 ≤ s.d6 ∧ s.d6 ≤ 4) :
    determine_level_of_care s = specWeighted s ∧
    determine_loc (toDimList s) = specMax s ∧
    (overallRisk s = 5 / 2 → maxValues s < 4 →
      determine_level_of_care s = "Level 2.1: Intensive Outpatient") ∧
    (maxValues s = 4 →
      determine_level_of_care s = "Level 3.7: Residential/Inpatient" ∧
      determine_loc (toDimList s) = "Level 3.7 (Residential/Inpatient)") := by
  refine ⟨(specWeighted_eq_placement s).symm, determine_loc_toDimList s, ?_, ?_⟩
  · intro hov hmax
    simp only [determine_level_of_care, placementOf, hov]
    rw [if_neg (not_or.mpr ⟨by norm_num, not_le.mpr hmax⟩), if_neg (by norm_num),
      if_pos le_rfl]
  · intro hmax
    constructor
    · simp only [determine_level_of_care, placementOf]
      rw [if_pos (Or.inr (le_of_eq hmax.symm))]
    · rw [determine_loc_toDimList]
      unfold specMax
      rw [show max (max (max (max (max s.d1 s.d2) s.d3) s.d4) s.d5) s.d6 = maxValues s from
        rfl, hmax]
      norm_num

/-- C2 witness: the score set D1=4, D2=3, D3=2, D4=1, D5=0, D6=0, in range. -/
theorem resolvers_match_spec_strategies_witness :
    ((0 : ℚ) ≤ 4 ∧ (4 : ℚ) ≤ 4) ∧
    (determine_level_of_care ⟨4, 3, 2, 1, 0, 0⟩ = specWeighted ⟨4, 3, 2, 1, 0, 0⟩ ∧
     determine_loc (toDimList ⟨4, 3, 2, 1, 0, 0⟩) = specMax ⟨4, 3, 2, 1, 0, 0⟩ ∧
     (overallRisk ⟨4, 3, 2, 1, 0, 0⟩ = 5 / 2 → maxValues ⟨4, 3, 2, 1, 0, 0⟩ < 4 →
       determine_level_of_care ⟨4, 3, 2, 1, 0, 0⟩ = "Level 2.1: Intensive Outpatient") ∧
     (maxValues ⟨4, 3, 2, 1, 0, 0⟩ = 4 →
       determine_level_of_care ⟨4, 3, 2, 1, 0, 0⟩ = "Level 3.7: Residential/Inpatient" ∧
       determine_loc (toDimList ⟨4, 3, 2, 1, 0, 0⟩) = "Level 3.7 (Residential/Inpatient)")) :=
  ⟨⟨by norm_num, by norm_num⟩,
   resolvers_match_spec_strategies ⟨4, 3, 2, 1, 0, 0⟩ (by norm_num) (by norm_num)
     (by norm_num) (by norm_num) (by norm_num) (by norm_num)⟩

/-- C6: both resolver strategies are monotonic — raising dimension scores
pointwise (in particular raising a single dimension with the others fixed)
never lowers the resolved tier (Outpatient Therapy < Intensive Outpatient <
High-Intensity Outpatient < Residential/Inpatient). -/
theorem resolver_tier_monotonicity (s s' : Scores) (h1 : s.d1 ≤ s'.d1) (h2 : s.d2 ≤ s'.d2)
    (h3 : s.d3 ≤ s'.d3) (h4 : s.d4 ≤ s'.d4) (h5 : s.d5 ≤ s'.d5) (h6 : s.d6 ≤ s'.d6) :
    locRank (determine_level_of_care s) ≤ locRank (determine_level_of_care s') ∧
    locRank (determine_loc (toDimList s)) ≤ locRank (determine_loc (toDimList s')) := by
  constructor
  · simp only [determine_level_of_care, locRank_placementOf]
    exact rankOf_mono (overallRisk_mono h1 h2 h3 h4 h5 h6) (maxValues_mono h1 h2 h3 h4 h5 h6)
  · rw [determine_loc_toDimList, determine_loc_toDimList, locRank_specMax, locRank_specMax]
    exact rankMaxOf_mono (maxValues_mono h1 h2 h3 h4 h5 h6)

/-- C5: the keyword scorer returns, per dimension, exactly the maximum
severity over the rules of the static table whose phrase occurs as a
case-insensitive substring of the lower-cased text (0 when no phrase
occurs, substring containment rather than whole-word matching), and the
result is invariant under reordering of the rule table. -/
theorem keyword_scorer_is_rule_max (t : String) (d : Dimension) (rules : List Rule)
    (hperm : rules.Perm SCORING_RULES) :
    calculate_severity t d = maxMatchSeverity SCORING_RULES t d ∧
    calculate_severity_with rules t d = calculate_severity t d :=
  ⟨calculate_severity_with_eq SCORING_RULES t d,
   (calculate_severity_with_eq rules t d).trans
     ((maxMatchSeverity_perm hperm t d).trans
       (calculate_severity_with_eq SCORING_RULES t d).symm)⟩

/-- C5 witness: a concrete transcript, dimension D3, and the rule table
itself as the permutation. -/
theorem keyword_scorer_is_rule_max_witness :
    List.Perm SCORING_RULES SCORING_RULES ∧
    (calculate_severity "I am feeling suicidal" Dimension.D3 =
       maxMatchSeverity SCORING_RULES "I am feeling suicidal" Dimension.D3 ∧
     calculate_severity_with SCORING_RULES "I am feeling suicidal" Dimension.D3 =
       calculate_severity "I am feeling suicidal" Dimension.D3) :=
  ⟨List.Perm.refl _,
   keyword_scorer_is_rule_max "I am feeling suicidal" Dimension.D3 SCORING_RULES
     (List.Perm.refl _)⟩

/-- C3, amended: the keyword scorer's values always lie in [0, 4] (ℕ-valued,
bounded by 4); the structured scorer always returns all six keys with values
≥ 0 and with D4, D5, D6 ≤ 4, but D1, D2, D3 are only ≤ 4 when the
externally supplied inputs respect the scale — the intoxication sub-score
(D1_Q5A / 2.5) and any supplied D1_score / D2_score / D3_score must be ≤ 4
(the code does not clamp them, see the counterexample). -/
theorem dimension_score_range (t : String) (d : Dimension) (pm : ProgressMap) (s : Scores)
    (hok : calculate_dimension_scores pm = .ok s) :
    calculate_severity t d ≤ 4 ∧
    (0 ≤ s.d1 ∧ 0 ≤ s.d2 ∧ 0 ≤ s.d3 ∧ 0 ≤ s.d4 ∧ 0 ≤ s.d5 ∧ 0 ≤ s.d6) ∧
    (s.d4 ≤ 4 ∧ s.d5 ≤ 4 ∧ s.d6 ≤ 4) ∧
    (intoxScore pm ≤ 4 →
      (∀ q, pyFloatE (pmGetD pm "D1_score" (.num 0)) = .ok q → q ≤ 4) → s.d1 ≤ 4) ∧
    ((∀ q, pyFloatE (pmGetD pm "D2_score" (.num 0)) = .ok q → q ≤ 4) → s.d2 ≤ 4) ∧
    ((∀ q, pyFloatE (pmGetD pm "D3_score" (.num 0)) = .ok q → q ≤ 4) → s.d3 ≤ 4) := by
  obtain ⟨q1, q2, q3, qi, qc, h1, h2, h3, h4, h5, hs⟩ := calc_scores_inversion pm s hok
  subst hs
  dsimp only
  refine ⟨calculate_severity_le_four t d, ⟨?_, ?_, ?_, ?_, ?_, ?_⟩, ⟨?_, ?_, ?_⟩, ?_, ?_, ?_⟩
  · exact le_max_of_le_left (le_max_of_le_right (withdrawalScore_bounds pm).1)
  · exact le_max_of_le_left (d2Risk_bounds pm).1
  · exact le_max_of_le_left (d3Risk_bounds pm).1
  · exact (d4Of_bounds pm qi qc).1
  · exact (calcD5_bounds pm).1
  · exact (calcD6_bounds pm).1
  · exact (d4Of_bounds pm qi qc).2
  · exact (calcD5_bounds pm).2
  · exact (calcD6_bounds pm).2
  · intro hintox hsup
    exact max_le (max_le hintox (withdrawalScore_bounds pm).2) (hsup q1 h1)
  · intro hsup
    exact max_le (d2Risk_bounds pm).2 (hsup q2 h2)
  · intro hsup
    exact max_le (d3Risk_bounds pm).2 (hsup q3 h3)

/-- C3 amended witness: the empty transcript, empty progress map and its
score set. -/
theorem dimension_score_range_witness :
    calculate_dimension_scores [] = .ok ⟨0, 0, 0, 4, 2, 1⟩ ∧
    (calculate_severity "" Dimension.D1 ≤ 4 ∧
     (0 ≤ (0 : ℚ) ∧ 0 ≤ (0 : ℚ) ∧ 0 ≤ (0 : ℚ) ∧ 0 ≤ (4 : ℚ) ∧ 0 ≤ (2 : ℚ) ∧ 0 ≤ (1 : ℚ)) ∧
     ((4 : ℚ) ≤ 4 ∧ (2 : ℚ) ≤ 4 ∧ (1 : ℚ) ≤ 4)) := by
  have hok : calculate_dimension_scores [] = .ok ⟨0, 0, 0, 4, 2, 1⟩ := by
    with_unfolding_all decide
  have h := dimension_score_range "" Dimension.D1 [] ⟨0, 0, 0, 4, 2, 1⟩ hok
  exact ⟨hok, h.1, h.2.1, h.2.2.1⟩

/-- C4, amended: only the `D1_Q5A` parse is protected by try/except (a failed
parse contributes 0.0 to the intoxication sub-score when the critical flag
is absent); the structured scorer returns normally exactly when the five
unprotected `float(...)` calls — on `D1_score`, `D2_score`, `D3_score`,
`change_importance_score`, `change_confidence_score` — succeed, and raises
otherwise (see the counterexample). -/
theorem structured_scorer_error_behavior (pm : ProgressMap)
    (h1 : ∃ q, pyFloatE (pmGetD pm "D1_score" (.num 0)) = .ok q)
    (h2 : ∃ q, pyFloatE (pmGetD pm "D2_score" (.num 0)) = .ok q)
    (h3 : ∃ q, pyFloatE (pmGetD pm "D3_score" (.num 0)) = .ok q)
    (h4 : ∃ q, pyFloatE (pmGetD pm "change_importance_score" (.num 0)) = .ok q)
    (h5 : ∃ q, pyFloatE (pmGetD pm "change_confidence_score" (.num 0)) = .ok q) :
    (∃ s, calculate_dimension_scores pm = .ok s) ∧
    (pyFloat (pmGetD pm "D1_Q5A" (.num 0)) = none →
      eqStr (pmGet pm "critical_intoxication") "Yes" = false → intoxScore pm = 0) := by
  obtain ⟨q1, hq1⟩ := h1
  obtain ⟨q2, hq2⟩ := h2
  obtain ⟨q3, hq3⟩ := h3
  obtain ⟨qi, hq4⟩ := h4
  obtain ⟨qc, hq5⟩ := h5
  refine ⟨⟨_, calc_scores_eq pm q1 q2 q3 qi qc hq1 hq2 hq3 hq4 hq5⟩, ?_⟩
  intro hfail hcrit
  simp [intoxScore, hfail, hcrit]

/-- C4 amended witness: a map whose `D1_Q5A` is the unparseable string
"abc" (all five unprotected parses default to 0 and succeed); the scorer
returns normally with the intoxication sub-score degraded to 0. -/
theorem structured_scorer_error_behavior_witness :
    pyFloatE (pmGetD [("D1_Q5A", Value.str "abc")] "D1_score" (.num 0)) = .ok 0 ∧
    (∃ s, calculate_dimension_scores [("D1_Q5A", Value.str "abc")] = .ok s) ∧
    (pyFloat (pmGetD [("D1_Q5A", Value.str "abc")] "D1_Q5A" (.num 0)) = none →
      eqStr (pmGet [("D1_Q5A", Value.str "abc")] "critical_intoxication") "Yes" = false →
      intoxScore [("D1_Q5A", Value.str "abc")] = 0) :=
  ⟨by with_unfolding_all decide,
   structured_scorer_error_behavior [("D1_Q5A", Value.str "abc")]
     ⟨0, by with_unfolding_all decide⟩ ⟨0, by with_unfolding_all decide⟩
     ⟨0, by with_unfolding_all decide⟩ ⟨0, by with_unfolding_all decide⟩
     ⟨0, by with_unfolding_all decide⟩⟩

/-- C6 witness: raising D3 from 0 to 4 with the other five dimensions fixed. -/
theorem resolver_tier_monotonicity_witness :
    (0 : ℚ) ≤ 4 ∧
    (locRank (determine_level_of_care ⟨1, 1, 0, 1, 1, 1⟩) ≤
       locRank (determine_level_of_care ⟨1, 1, 4, 1, 1, 1⟩) ∧
     locRank (determine_loc (toDimList ⟨1, 1, 0, 1, 1, 1⟩)) ≤
       locRank (determine_loc (toDimList ⟨1, 1, 4, 1, 1, 1⟩))) :=
  ⟨by norm_num,
   resolver_tier_monotonicity ⟨1, 1, 0, 1, 1, 1⟩ ⟨1, 1, 4, 1, 1, 1⟩ le_rfl le_rfl
     (by norm_num) le_rfl le_rfl le_rfl⟩

/-- C9: on the spec's golden progress map the structured scorer returns
D1=3.0, D2=2.0, D3=3.0, D4=1.0, D5=1.0, D6=0.0 and the weighted resolver
returns Outpatient Therapy; adding `suicidal_ideation_screen: "Yes"` raises
D3 to 4.0 and the weighted resolution to Residential/Inpatient. -/
theorem golden_progress_map_scores :
    calculate_dimension_scores c9_progress = .ok ⟨3, 2, 3, 1, 1, 0⟩ ∧
    determine_level_of_care ⟨3, 2, 3, 1, 1, 0⟩ = "Level 1.0: Outpatient Therapy" ∧
    calculate_dimension_scores c9_progress_esc = .ok ⟨3, 2, 4, 1, 1, 0⟩ ∧
    determine_level_of_care ⟨3, 2, 4, 1, 1, 0⟩ = "Level 3.7: Residential/Inpatient" := by
  with_unfolding_all decide

/-- C10: the empty progress map scores D1=0, D2=0, D3=0, D4=4, D5=2, D6=1
(D4 defaults to low readiness 4.0), and the weighted resolver then returns
the top tier Residential/Inpatient via the any-dimension-≥-4 override — not
the lowest-acuity placement. -/
theorem empty_progress_map_residential :
    calculate_dimension_scores [] = .ok ⟨0, 0, 0, 4, 2, 1⟩ ∧
    determine_level_of_care ⟨0, 0, 0, 4, 2, 1⟩ = "Level 3.7: Residential/Inpatient" := by
  with_unfolding_all decide

/-- C7, counterexample: the weighted resolver does NOT return Outpatient
Therapy on the empty score set — `scores["D1"]` raises `KeyError` (modelled
as `.error ()`), refuting the claim for the weighted strategy. -/
theorem weighted_resolver_empty_raises :
    determine_level_of_care_dict [] = Except.error () := by
  with_unfolding_all decide

/-- C7, amended: only the max-dimension resolver (`determine_loc`) guards the
empty score set and returns the lowest-acuity placement; the weighted
resolver raises `KeyError` on the empty score dict. -/
theorem empty_scores_resolution :
    determine_loc [] = "Level 1.0 (Outpatient Therapy)" ∧
    determine_level_of_care_dict [] = Except.error () := by
  with_unfolding_all decide

/-- C4, counterexample: a non-numeric string under `D1_score` makes the
structured scorer raise (`float("abc")` → `ValueError`, modelled as
`.error ()`) instead of contributing 0.0, refuting the claim that the scorer
never raises. -/
theorem nonnumeric_d1_score_raises :
    calculate_dimension_scores [("D1_score", Value.str "abc")] = Except.error () := by
  with_unfolding_all decide

/-- C8: for a fixed script configuration, any two utterances that both
trigger the safety gate produce the identical override payload and the
identical fixed log metadata — the payload is a function only of the
triggered flag and of the presence of escalation-protocol content, and the
raw utterance text does not flow into the returned instruction or into the
emitted log metadata (they are built solely from the configuration). -/
theorem safety_gate_payload_independent_of_text (a b : ActiveScript) (t1 t2 : String)
    (ht1 : contains_high_risk_symptom t1 = true)
    (ht2 : contains_high_risk_symptom t2 = true) :
    build_turn_instruction_if_needed a t1 = build_turn_instruction_if_needed a t2 ∧
    (build_turn_instruction_if_needed a t1).1 =
      some (build_escalation_addendum a.escalation_protocols) ∧
    (build_turn_instruction_if_needed a t1).2 =
      some { message := "High-risk symptom detected; escalation override should be applied"
             event_type := "SECURITY_SUSPICIOUS_ACTIVITY"
             script_id := a.script_id
             version := a.version
             gate := "high_risk_symptom"
             triggered := true } ∧
    (dictTruthy a.escalation_protocols = dictTruthy b.escalation_protocols →
      build_escalation_addendum a.escalation_protocols =
        build_escalation_addendum b.escalation_protocols) := by
  refine ⟨?_, ?_, ?_, ?_⟩
  · simp [build_turn_instruction_if_needed, ht1, ht2]
  · simp [build_turn_instruction_if_needed, ht1]
  · simp [build_turn_instruction_if_needed, ht1]
  · intro hep
    simp [build_escalation_addendum, hep]

/-- C8 witness: the utterances "I want to kill myself" and "overdose" under a
fixed configuration with no escalation protocols. -/
theorem safety_gate_payload_independent_of_text_witness :
    contains_high_risk_symptom "I want to kill myself" = true ∧
    contains_high_risk_symptom "overdose" = true ∧
    (build_turn_instruction_if_needed ⟨"s1", "v1", none, none, none⟩ "I want to kill myself" =
       build_turn_instruction_if_needed ⟨"s1", "v1", none, none, none⟩ "overdose" ∧
     (build_turn_instruction_if_needed ⟨"s1", "v1", none, none, none⟩
         "I want to kill myself").1 = some (build_escalation_addendum none) ∧
     (build_turn_instruction_if_needed ⟨"s1", "v1", none, none, none⟩
         "I want to kill myself").2 =
       some { message := "High-risk symptom detected; escalation override should be applied"
              event_type := "SECURITY_SUSPICIOUS_ACTIVITY"
              script_id := "s1"
              version := "v1"
              gate := "high_risk_symptom"
              triggered := true } ∧
     (dictTruthy none = dictTruthy none →
       build_escalation_addendum none = build_escalation_addendum none)) :=
  ⟨by decide, by decide,
   safety_gate_payload_independent_of_text ⟨"s1", "v1", none, none, none⟩
     ⟨"s1", "v1", none, none, none⟩ "I want to kill myself" "overdose"
     (by decide) (by decide)⟩

/-- C3, counterexample: the progress map `{D1_Q5A: 11}` produces
D1 = 11/2.5 = 4.4 > 4.0 — the structured scorer does not clamp the
intoxication self-report rescale, refuting the claim that every returned
value lies in [0.0, 4.0]. -/
theorem out_of_range_d1_score :
    calculate_dimension_scores [("D1_Q5A", Value.num 11)] = .ok ⟨22 / 5, 0, 0, 4, 2, 1⟩ ∧
    ¬ ((22 : ℚ) / 5 ≤ 4) := by
  with_unfolding_all decide

end Intaker
